import Mathlib

/-!
Verification of the `hobuilder` client library (`src/hobuilder/api.py`).

The development shallowly embeds the Python module: decoded JSON bodies
become an inductive `Json` value, Python dictionaries become ordered
association lists, Python exceptions become explicit error values
(`PyErr`), and the retrying `Api.send_request` becomes a recursive
function over an abstract transport oracle that records the attempt
counter and the sequence of sleep delays.
-/

namespace Hobuilder

/-- Decoded JSON values, as produced by `requests.Response.json()`. -/
inductive Json where
  | null
  | bool (b : Bool)
  | num (n : Int)
  | str (s : String)
  | arr (l : List Json)
  | obj (l : List (String × Json))
  deriving Repr

/-- A Python dictionary with string keys, as an insertion-ordered
association list (Python 3.7+ dicts preserve insertion order). -/
abbrev Obj := List (String × Json)

/-- Python exceptions that the embedded code can raise. -/
inductive PyErr where
  | keyError (k : String)
  | typeError
  | attributeError
  | valueError
  deriving DecidableEq, Repr

/-- First-match lookup in an association list (Python `d[k]` / `k in d`
semantics for dicts, whose keys are unique). -/
def dlookup : Obj → String → Option Json
  | [], _ => none
  | p :: rest, k => if p.1 == k then some p.2 else dlookup rest k

/-- Substring test on character lists: `needle` occurs somewhere in the
second argument. -/
def charsContain (needle : List Char) : List Char → Bool
  | [] => needle.isEmpty
  | c :: rest => needle.isPrefixOf (c :: rest) || charsContain needle rest

/-- Python `needle in hay` for strings. -/
def strContains (needle hay : String) : Bool :=
  charsContain needle.toList hay.toList

/-- Python `x == needle` where `needle` is a string: only equal strings
compare equal, every other type compares unequal without error. -/
def jsonIsStr (needle : String) : Json → Bool
  | .str t => needle == t
  | _ => false

/-- Python `needle in j` for a string needle: key membership on dicts,
substring on strings, element membership on lists, `TypeError` otherwise. -/
def pyIn (needle : String) : Json → Except PyErr Bool
  | .obj l => .ok (dlookup l needle).isSome
  | .str s => .ok (strContains needle s)
  | .arr l => .ok (l.any (jsonIsStr needle))
  | _ => .error .typeError

/-- Python `j[k]` for a string key: dict lookup (raising `KeyError` when
the key is absent), `TypeError` on every non-dict value. -/
def pyGetItem (j : Json) (k : String) : Except PyErr Json :=
  match j with
  | .obj l =>
    match dlookup l k with
    | some v => .ok v
    | none => .error (.keyError k)
  | _ => .error .typeError

/-- Python `j == 1`: true for the integer 1 and for `True`
(`True == 1` in Python), false for every other value. -/
def jsonEqOne : Json → Bool
  | .num n => n == 1
  | .bool b => b
  | _ => false

/-- The classified errors raised by the client: `Error('Unexpected
error: %r' % body)` for a malformed envelope, `APIUsageExceededRateLimit`
for the rate-limit message, `Error(errorMessage)` otherwise
(`api.py`, classes `Error` / `APIUsageExceededRateLimit`). -/
inductive CastErr where
  | unexpected (body : Json)
  | rateLimit (msg : Json)
  | apiError (msg : Json)
  deriving Repr

/-- `Api.cast_error` (`api.py` lines 118-123): shape check first
(`'response' in body and 'status' in body['response']`, short-circuit),
then the rate-limit substring test on `body['response']['errorMessage']`. -/
def cast_error (body : Json) : Except PyErr CastErr := do
  let hasResp ← pyIn "response" body
  let shapeBad ←
    if !hasResp then pure true
    else do
      let resp ← pyGetItem body "response"
      let hs ← pyIn "status" resp
      pure (!hs)
  if shapeBad then return (.unexpected body)
  let resp ← pyGetItem body "response"
  let em ← pyGetItem resp "errorMessage"
  let isRL ← pyIn "API usage exceeded rate limit" em
  if isRL then return (.rateLimit em) else return (.apiError em)

/-- The success test of `Api.send_request` (`api.py` lines 101-104):
`not ('response' not in j or 'status' not in j['response'] or
j['response']['status'] != 1)`, with Python short-circuit evaluation. -/
def envelope_ok (body : Json) : Except PyErr Bool := do
  let hasResp ← pyIn "response" body
  if !hasResp then pure false
  else do
    let resp ← pyGetItem body "response"
    let hs ← pyIn "status" resp
    if !hs then pure false
    else do
      let st ← pyGetItem resp "status"
      pure (jsonEqOne st)

/-- Python `d[k] = v` on a dict: replace the value in place when the key
exists (keeping its position), append otherwise. -/
def setKey : Obj → String → Json → Obj
  | [], k, v => [(k, v)]
  | p :: rest, k, v =>
    if p.1 == k then (k, v) :: rest else p :: setKey rest k v

/-- Python `d.update(upd)`: apply `d[k] = v` for every entry of `upd` in
iteration order. -/
def dictUpdate : Obj → Obj → Obj
  | d, [] => d
  | d, p :: rest => dictUpdate (setKey d p.1 p.2) rest

/-- `Request.__init__` (`api.py` lines 128-137): target, method, merged
parameter dict, and a mutable attempt counter starting at 0. The derived
`url` field is omitted: it comes from the separate `http_build_query`
package, outside this repository. -/
structure Request where
  target : String
  method : String
  params : Obj
  attempts : Nat
  deriving Repr

/-- `Response.__init__` (`api.py` lines 150-160): keeps the originating
request and the raw decoded envelope, and copies the five envelope
fields. -/
structure Response where
  request : Request
  json_response : Json
  data : Json
  status : Json
  httpStatus : Json
  errors : Json
  errorMessage : Json
  deriving Repr

/-- The field extraction performed by `Response.__init__`: each field is
read as `json_response['response'][field]`, raising `KeyError` when
absent. -/
def mkResponse (req : Request) (body : Json) : Except PyErr Response := do
  let data ← pyGetItem (← pyGetItem body "response") "data"
  let status ← pyGetItem (← pyGetItem body "response") "status"
  let httpStatus ← pyGetItem (← pyGetItem body "response") "httpStatus"
  let errors ← pyGetItem (← pyGetItem body "response") "errors"
  let errorMessage ← pyGetItem (← pyGetItem body "response") "errorMessage"
  pure ⟨req, body, data, status, httpStatus, errors, errorMessage⟩

/-- How one call to `Api.send_request` ends: a successful `Response`, a
classified error raised via `cast_error`, or an uncaught Python-level
exception. -/
inductive SendResult where
  | success (r : Response)
  | raised (e : CastErr)
  | crashed (e : PyErr)
  deriving Repr

/-- Observable outcome of `Api.send_request`: the result, the final state
of the (mutated) request, and the sequence of `time.sleep` delays in
milliseconds, in order. -/
structure SendOutcome where
  result : SendResult
  request : Request
  delays : List Nat
  deriving Repr

/-- `Api.send_request` (`api.py` lines 86-116). `transport n` is the
decoded JSON body returned by the HTTP GET of the n-th attempt. The
attempt counter is incremented before the send; on a rate-limit error
with `retry_count > 1 and request.attempts < retry_count` the code
sleeps 250 ms and recurses with the same request, otherwise the
classified error is raised. -/
def send_request (rc : Nat) (transport : Nat → Json) (req : Request) :
    SendOutcome :=
  let req1 : Request := { req with attempts := req.attempts + 1 }
  let body := transport req1.attempts
  match envelope_ok body with
  | .error e => ⟨.crashed e, req1, []⟩
  | .ok true =>
    match mkResponse req1 body with
    | .error e => ⟨.crashed e, req1, []⟩
    | .ok r => ⟨.success r, req1, []⟩
  | .ok false =>
    match cast_error body with
    | .error e => ⟨.crashed e, req1, []⟩
    | .ok (CastErr.rateLimit m) =>
      if h : 1 < rc ∧ req.attempts + 1 < rc then
        let rest := send_request rc transport req1
        ⟨rest.result, rest.request, 250 :: rest.delays⟩
      else
        match cast_error body with
        | .error e => ⟨.crashed e, req1, []⟩
        | .ok e2 => ⟨.raised e2, req1, []⟩
    | .ok e => ⟨.raised e, req1, []⟩
  termination_by rc - req.attempts
  decreasing_by omega

/-- `Api.__init__` configuration (`api.py` lines 59-71): the credentials
and the retry count (`retry_count`, default 1). The debug flag only
selects a log level and is omitted. -/
structure Api where
  network_token : Json
  network_id : Json
  retry_count : Nat

/-- `Api.create_request` (`api.py` lines 78-87): the base parameters are
overlaid with the caller's parameters, and the request starts with
`attempts = 0`. -/
def Api.create_request (api : Api) (target method : String) (params : Obj) :
    Request :=
  ⟨target, method,
    dictUpdate
      [("NetworkId", api.network_id), ("NetworkToken", api.network_token),
        ("Method", .str method)]
      params,
    0⟩

/-- `Api.call` (`api.py` lines 73-76): build the request, then send it. -/
def Api.call (api : Api) (transport : Nat → Json) (target method : String)
    (params : Obj) : SendOutcome :=
  send_request api.retry_count transport (api.create_request target method params)

/-- Decimal digit value of a character, `none` for a non-digit. -/
def digitToNat (c : Char) : Option Nat :=
  if c = '0' then some 0
  else if c = '1' then some 1
  else if c = '2' then some 2
  else if c = '3' then some 3
  else if c = '4' then some 4
  else if c = '5' then some 5
  else if c = '6' then some 6
  else if c = '7' then some 7
  else if c = '8' then some 8
  else if c = '9' then some 9
  else none

/-- Accumulate a decimal number over a digit list, `none` on the first
non-digit. -/
def parseNatAux : List Char → Nat → Option Nat
  | [], acc => some acc
  | c :: rest, acc =>
    match digitToNat c with
    | some d => parseNatAux rest (acc * 10 + d)
    | none => none

/-- Python `int(s)` on a string: an optional sign followed by at least
one decimal digit (Python's surrounding-whitespace stripping and digit
grouping underscores are not modeled; no claim exercises them). -/
def pyIntOfString (s : String) : Option Int :=
  match s.toList with
  | [] => none
  | '-' :: rest =>
    if rest.isEmpty then none
    else (parseNatAux rest 0).map (fun n => -(n : Int))
  | '+' :: rest =>
    if rest.isEmpty then none
    else (parseNatAux rest 0).map Int.ofNat
  | cs => (parseNatAux cs 0).map Int.ofNat

/-- Python `int(v)`: identity on ints, 1/0 on booleans, decimal parse on
strings (`ValueError` on a non-numeric string), `TypeError` on every
other type. -/
def pyInt : Json → Except PyErr Int
  | .num n => .ok n
  | .bool b => .ok (if b then 1 else 0)
  | .str s =>
    match pyIntOfString s with
    | some n => .ok n
    | none => .error .valueError
  | _ => .error .typeError

/-- `Model.__init__` (`api.py` lines 178-189) sets one attribute per
entry: the key `id` gets `int(v)`, every other key keeps its value. -/
def coerceField (p : String × Json) : Except PyErr (String × Json) :=
  if p.1 == "id" then (pyInt p.2).map (fun n => (p.1, .num n)) else .ok p

/-- An entity record: the `__dict__` of a `Model` instance, in attribute
insertion order. -/
structure Model where
  fields : Obj
  deriving Repr

/-- `Model.__init__` (`api.py` lines 178-189). The argument is always a
dict here (the merged scope), so the `type(d) == dict` guard never
fires; the loop applies the `id → int` coercion. -/
def modelInit (d : Obj) : Except PyErr Model :=
  (d.mapM coerceField).map Model.mk

/-- `Mapper.extract_one` (`api.py` lines 194-205). The returned `Obj` is
the post-call state of `data`: `model_scope.update(relative_scopes)`
mutates the primary scope inside `data` in place. A missing primary key
raises `KeyError`; a non-dict primary scope has no `update` attribute. -/
def Mapper.extract_one (data : Obj) (model_name : String) :
    Except PyErr (Option Model × Obj) :=
  if data.length = 0 then .ok (none, data)
  else
    match dlookup data model_name with
    | none => .error (.keyError model_name)
    | some (.obj l) =>
      match modelInit
          (dictUpdate l (data.filter (fun p => p.1 != model_name))) with
      | .error e => .error e
      | .ok m =>
        .ok (some m,
          setKey data model_name
            (.obj (dictUpdate l (data.filter (fun p => p.1 != model_name)))))
    | some _ => .error .attributeError

/-- One iteration of the `Mapper.extract_all` loop (`api.py` lines
215-222): merge the per-object siblings into the primary scope (mutating
it), build the `Model`. Returns the record and the post-call scope. -/
def extractEntry (model_name : String) (scope : Json) :
    Except PyErr (Model × Json) :=
  match scope with
  | .obj os =>
    match dlookup os model_name with
    | none => .error (.keyError model_name)
    | some (.obj l) =>
      match modelInit
          (dictUpdate l (os.filter (fun p => p.1 != model_name))) with
      | .error e => .error e
      | .ok m =>
        .ok (m,
          .obj (setKey os model_name
            (.obj (dictUpdate l (os.filter (fun p => p.1 != model_name))))))
    | some _ => .error .attributeError
  | _ => .error .attributeError

/-- `Mapper.extract_all` (`api.py` lines 207-224): `None` on empty input,
otherwise one record per entry of `data` in iteration order. The
returned `Obj` is the post-call state of `data` (each primary scope
mutated by the merge). -/
def Mapper.extract_all (data : Obj) (model_name : String) :
    Except PyErr (Option (List Model) × Obj) :=
  if data.length = 0 then .ok (none, data)
  else do
    let pairs ← data.mapM (fun p => do
      let r ← extractEntry model_name p.2
      pure (r.1, (p.1, r.2)))
    pure (some (pairs.map Prod.fst), pairs.map Prod.snd)

/-- Python `model_name or self.request.target`: `None` and the empty
string are falsy. -/
def orTarget (mn : Option String) (t : String) : String :=
  match mn with
  | none => t
  | some s => if s.isEmpty then t else s

/-- Write-through of the data alias. In the source,
`self.data = json_response['response']['data']` (`api.py` line 156), so
the mapper's in-place merge of scopes inside `data` is equally visible
in the decoded envelope at that path. This helper reflects the mutation
into the envelope value by replacing the `data` entry of the `response`
object with the mutated mapping. On every `Response` the client builds
(`mkResponse`) that path exists and holds exactly `self.data`; when the
path is absent there is no alias and the envelope is unchanged. -/
def writeDataAlias (body newData : Json) : Json :=
  match body with
  | .obj bl =>
    match dlookup bl "response" with
    | some (.obj rl) =>
      if (dlookup rl "data").isSome then
        .obj (setKey bl "response" (.obj (setKey rl "data" newData)))
      else body
    | _ => body
  | _ => body

/-- `Response.extract_one` (`api.py` lines 172-175). The returned
`Response` is the post-call state of `self`: the mapper mutates
`self.data` in place, and since `self.data` aliases
`json_response['response']['data']` the same mutation shows in the
envelope. The envelope's `data` is a JSON object here (the non-object
case cannot reach the mapper's dict operations). -/
def Response.extract_one (r : Response) (mn : Option String) :
    Except PyErr (Option Model × Response) :=
  let model_name := orTarget mn r.request.target
  match r.data with
  | .obj d =>
    (Mapper.extract_one d model_name).map
      (fun p => (p.1, { r with
        data := .obj p.2,
        json_response := writeDataAlias r.json_response (.obj p.2) }))
  | _ => .error .typeError

/-- `Response.extract_all` (`api.py` lines 162-170): when the envelope is
paginated (`'page' in self.data`), the records live under
`self.data['data']`. The returned `Response` is the post-call state,
with the in-place mutation written through the
`json_response['response']['data']` alias as in `Response.extract_one`. -/
def Response.extract_all (r : Response) (mn : Option String) :
    Except PyErr (Option (List Model) × Response) :=
  let model_name := orTarget mn r.request.target
  match r.data with
  | .obj dd =>
    if (dlookup dd "page").isSome then
      match dlookup dd "data" with
      | none => .error (.keyError "data")
      | some (.obj inner) =>
        (Mapper.extract_all inner model_name).map
          (fun p => (p.1, { r with
            data := .obj (setKey dd "data" (.obj p.2)),
            json_response := writeDataAlias r.json_response
              (.obj (setKey dd "data" (.obj p.2))) }))
      | some _ => .error .typeError
    else
      (Mapper.extract_all dd model_name).map
        (fun p => (p.1, { r with
          data := .obj p.2,
          json_response := writeDataAlias r.json_response (.obj p.2) }))
  | _ => .error .typeError

/-! Concrete fixtures used by witnesses and counterexamples. -/

/-- A rate-limit error envelope, as returned by the upstream API. -/
def rlBody : Json :=
  .obj [("response", .obj [("status", .num 0),
    ("errorMessage", .str "API usage exceeded rate limit, wait a bit")])]

/-- A non-rate-limit error envelope. -/
def apiErrBody : Json :=
  .obj [("response", .obj [("status", .num 0),
    ("errorMessage", .str "Invalid network token")])]

/-- A body with no `response` key at all. -/
def noRespBody : Json := .obj [("foo", .num 1)]

/-- A body whose `response` object has no `status` key. -/
def noStatusBody : Json :=
  .obj [("response", .obj [("errorMessage", .str "half an envelope")])]

/-- A client configured with `retry_count = 3`. -/
def api3 : Api := ⟨.str "TOKEN", .num 1, 3⟩

/-- A client configured with `retry_count = 1`. -/
def api1 : Api := ⟨.str "TOKEN", .num 1, 1⟩

/-- A client configured with `retry_count = 5`. -/
def api5 : Api := ⟨.str "TOKEN", .num 1, 5⟩

/-- A success envelope (`status == 1`) whose `errorMessage` is the
non-empty string "oops". -/
def c2body : Json :=
  .obj [("response", .obj [("status", .num 1), ("httpStatus", .num 200),
    ("data", .obj []), ("errors", .arr []), ("errorMessage", .str "oops")])]

/-- The request `api1.create_request "Conversion" "findAll" []` after its
single attempt. -/
def c2req : Request :=
  ⟨"Conversion", "findAll",
    [("NetworkId", .num 1), ("NetworkToken", .str "TOKEN"),
      ("Method", .str "findAll")], 1⟩

/-- The `Response` the client builds from `c2body`. -/
def c2resp : Response :=
  ⟨c2req, c2body, .obj [], .num 1, .num 200, .arr [], .str "oops"⟩

/-- A success envelope whose `errorMessage` is the empty string. -/
def c2okBody : Json :=
  .obj [("response", .obj [("status", .num 1), ("httpStatus", .num 200),
    ("data", .obj []), ("errors", .arr []), ("errorMessage", .str "")])]

/-- The spec's collection example: one object scope containing a primary
`Conversion` scope and a contained `Offer` sibling. -/
def c4data : Obj :=
  [("1", .obj [("Conversion", .obj [("id", .str "5"), ("payout", .str "10")]),
    ("Offer", .obj [("id", .str "2")])])]

/-- The record extracted from `c4data`: `id` coerced to the integer 5,
`payout` still the string "10", `Offer` the untouched sibling mapping. -/
def c4model : Model :=
  ⟨[("id", .num 5), ("payout", .str "10"),
    ("Offer", .obj [("id", .str "2")])]⟩

/-- The post-call state of `c4data`: the primary `Conversion` scope has
been mutated in place by the sibling merge. -/
def c4post : Obj :=
  [("1", .obj [("Conversion", .obj [("id", .str "5"), ("payout", .str "10"),
    ("Offer", .obj [("id", .str "2")])]),
    ("Offer", .obj [("id", .str "2")])])]

/-- A request that has completed its single attempt, targeting
`Conversion`. -/
def c9req : Request := ⟨"Conversion", "findAll", [], 1⟩

/-- The envelope data for the mutation example: a primary `Conversion`
scope and a contained `Offer` sibling. -/
def c9data : Obj :=
  [("Conversion", .obj [("id", .str "5")]),
    ("Offer", .obj [("id", .str "2")])]

/-- The full success envelope around `c9data`. -/
def c9body : Json :=
  .obj [("response", .obj [("status", .num 1), ("httpStatus", .num 200),
    ("data", .obj c9data), ("errors", .arr []), ("errorMessage", .str "")])]

/-- The `Response` holding `c9data`, as built from `c9body`. -/
def c9resp : Response :=
  ⟨c9req, c9body, .obj c9data, .num 1, .num 200, .arr [], .str ""⟩

/-- The record extracted from `c9resp`. -/
def c9model : Model := ⟨[("id", .num 5), ("Offer", .obj [("id", .str "2")])]⟩

/-- The post-call state of `c9data`: the `Conversion` scope has gained
the sibling `Offer` entry in place. -/
def c9dataPost : Obj :=
  [("Conversion", .obj [("id", .str "5"),
    ("Offer", .obj [("id", .str "2")])]),
    ("Offer", .obj [("id", .str "2")])]

/-- The post-call state of `c9body`: because `data` aliases
`json_response['response']['data']`, the envelope deeply contains the
mutated `Conversion` scope. -/
def c9bodyPost : Json :=
  .obj [("response", .obj [("status", .num 1), ("httpStatus", .num 200),
    ("data", .obj c9dataPost), ("errors", .arr []),
    ("errorMessage", .str "")])]

/-- The post-call state of `c9resp`: its `data` and the envelope reached
through the alias both hold the mutated `Conversion` scope. -/
def c9post : Response :=
  ⟨c9req, c9bodyPost, .obj c9dataPost, .num 1, .num 200, .arr [], .str ""⟩

/-- Primary scope with a field named `Offer` that collides with the
`Offer` sibling scope. -/
def c10data : Obj :=
  [("Conversion", .obj [("id", .str "1"), ("Offer", .str "stale")]),
    ("Offer", .obj [("id", .str "2")])]

/-- The record extracted from `c10data`: the sibling scope overwrote the
primary scope's own `Offer` field. -/
def c10model : Model :=
  ⟨[("id", .num 1), ("Offer", .obj [("id", .str "2")])]⟩

/-- The post-call state of `c10data`. -/
def c10post : Obj :=
  [("Conversion", .obj [("id", .str "1"),
    ("Offer", .obj [("id", .str "2")])]),
    ("Offer", .obj [("id", .str "2")])]

/-! Dictionary lemmas shared by the mapper proofs. -/

theorem dlookup_setKey_self (d : Obj) (k : String) (v : Json) :
    dlookup (setKey d k v) k = some v := by
  induction d with
  | nil => simp [setKey, dlookup]
  | cons p rest ih =>
    by_cases h : p.1 = k
    · simp [setKey, dlookup, h]
    · simp [setKey, dlookup, h, ih]

theorem dlookup_setKey_ne (d : Obj) (k k2 : String) (v : Json)
    (h : k ≠ k2) : dlookup (setKey d k2 v) k = dlookup d k := by
  have h2 : ¬(k2 = k) := fun hh => h hh.symm
  induction d with
  | nil => simp [setKey, dlookup, h2]
  | cons p rest ih =>
    by_cases hp : p.1 = k2
    · simp [setKey, dlookup, hp, h2]
    · simp [setKey, dlookup, hp, ih]

theorem dlookup_dictUpdate_not_mem (d upd : Obj) (k : String)
    (h : k ∉ upd.map Prod.fst) :
    dlookup (dictUpdate d upd) k = dlookup d k := by
  induction upd generalizing d with
  | nil => simp [dictUpdate]
  | cons p rest ih =>
    simp only [List.map_cons, List.mem_cons] at h
    push_neg at h
    simp only [dictUpdate]
    rw [ih _ h.2, dlookup_setKey_ne _ _ _ _ h.1]

theorem dlookup_dictUpdate_mem (d upd : Obj) (k : String) (v : Json)
    (hnd : (upd.map Prod.fst).Nodup) (hmem : (k, v) ∈ upd) :
    dlookup (dictUpdate d upd) k = some v := by
  induction upd generalizing d with
  | nil => cases hmem
  | cons p rest ih =>
    simp only [List.map_cons, List.nodup_cons] at hnd
    rcases List.mem_cons.mp hmem with heq | hrest
    · subst heq
      simp only [dictUpdate]
      rw [dlookup_dictUpdate_not_mem _ _ _ hnd.1, dlookup_setKey_self]
    · simp only [dictUpdate]
      exact ih (setKey d p.1 p.2) hnd.2 hrest

/-! Monad reduction lemmas for `Except`, used to evaluate the embedded
do-blocks under simp. -/

theorem except_bind_ok {α β ε : Type} (a : α) (f : α → Except ε β) :
    (Except.ok a >>= f : Except ε β) = f a := rfl

theorem except_bind_error {α β ε : Type} (e : ε) (f : α → Except ε β) :
    (Except.error e >>= f : Except ε β) = .error e := rfl

theorem except_pure {α ε : Type} (a : α) :
    (pure a : Except ε α) = .ok a := rfl

/-! Evaluation lemmas for one step of `send_request`. -/

theorem send_request_stop_rl (rc : Nat) (transport : Nat → Json)
    (req : Request) (m : Json)
    (h1 : envelope_ok (transport (req.attempts + 1)) = .ok false)
    (h2 : cast_error (transport (req.attempts + 1)) = .ok (.rateLimit m))
    (h3 : ¬(1 < rc ∧ req.attempts + 1 < rc)) :
    send_request rc transport req =
      ⟨.raised (.rateLimit m), { req with attempts := req.attempts + 1 }, []⟩ := by
  rw [send_request]
  simp [h1, h2, h3]

theorem send_request_retry_rl (rc : Nat) (transport : Nat → Json)
    (req : Request) (m : Json)
    (h1 : envelope_ok (transport (req.attempts + 1)) = .ok false)
    (h2 : cast_error (transport (req.attempts + 1)) = .ok (.rateLimit m))
    (h3 : 1 < rc) (h4 : req.attempts + 1 < rc) :
    send_request rc transport req =
      ⟨(send_request rc transport { req with attempts := req.attempts + 1 }).result,
       (send_request rc transport { req with attempts := req.attempts + 1 }).request,
       250 :: (send_request rc transport { req with attempts := req.attempts + 1 }).delays⟩ := by
  rw [send_request]
  simp [h1, h2, h3, h4]

theorem send_request_success_step (rc : Nat) (transport : Nat → Json)
    (req : Request) (r : Response)
    (h1 : envelope_ok (transport (req.attempts + 1)) = .ok true)
    (h2 : mkResponse { req with attempts := req.attempts + 1 }
            (transport (req.attempts + 1)) = .ok r) :
    send_request rc transport req =
      ⟨.success r, { req with attempts := req.attempts + 1 }, []⟩ := by
  rw [send_request]
  simp [h1, h2]

theorem send_request_raise_other (rc : Nat) (transport : Nat → Json)
    (req : Request) (e : CastErr)
    (h1 : envelope_ok (transport (req.attempts + 1)) = .ok false)
    (h2 : cast_error (transport (req.attempts + 1)) = .ok e)
    (h3 : ∀ m, e ≠ .rateLimit m) :
    send_request rc transport req =
      ⟨.raised e, { req with attempts := req.attempts + 1 }, []⟩ := by
  rw [send_request]
  cases e with
  | rateLimit m => exact absurd rfl (h3 m)
  | unexpected b => simp [h1, h2]
  | apiError m => simp [h1, h2]

/-- When every transport attempt yields a rate-limit error envelope, the
retry loop runs the attempt counter up to `retry_count`, sleeping 250 ms
between consecutive attempts, and finally raises the rate-limit error. -/
theorem send_request_rl_exhaust (rc : Nat) (transport : Nat → Json)
    (henv : ∀ n, envelope_ok (transport n) = .ok false)
    (hrl : ∀ n, ∃ m, cast_error (transport n) = .ok (.rateLimit m)) :
    ∀ (n : Nat) (req : Request), rc - req.attempts = n + 1 →
      (send_request rc transport req).request = { req with attempts := rc } ∧
      (send_request rc transport req).delays = List.replicate n 250 ∧
      ∃ m, (send_request rc transport req).result = .raised (.rateLimit m) := by
  intro n
  induction n with
  | zero =>
    intro req h
    obtain ⟨m, hm⟩ := hrl (req.attempts + 1)
    rw [send_request_stop_rl rc transport req m (henv _) hm (by omega)]
    have hra : req.attempts + 1 = rc := by omega
    rw [hra]
    exact ⟨rfl, rfl, m, rfl⟩
  | succ k ih =>
    intro req h
    obtain ⟨m, hm⟩ := hrl (req.attempts + 1)
    rw [send_request_retry_rl rc transport req m (henv _) hm (by omega) (by omega)]
    have h2 : rc - ({ req with attempts := req.attempts + 1 } : Request).attempts
        = k + 1 := by
      simp only []
      omega
    obtain ⟨ha, hd, m2, hr⟩ := ih { req with attempts := req.attempts + 1 } h2
    exact ⟨ha, by simp [hd, List.replicate], m2, hr⟩

/-! Claims C3 and C6: mapper failure and empty-input behaviour. -/

/-- Claim C3: for every non-empty data mapping whose top-level keys do
not include `model_name`, `Mapper.extract_one` fails with the typed
mapping failure (`KeyError model_name`) instead of silently producing a
incomplete record. -/
theorem claim_C3 (data : Obj) (mn : String) (hne : data ≠ [])
    (hnk : dlookup data mn = none) :
    Mapper.extract_one data mn = .error (.keyError mn) := by
  have hlen : ¬data.length = 0 := by
    simpa [List.length_eq_zero] using hne
  simp [Mapper.extract_one, hlen, hnk]

/-- Witness for C3 at the spec's example:
`extract_one({"Conversion": {"id": "7"}}, "Offer")` fails. -/
theorem claim_C3_witness :
    Mapper.extract_one [("Conversion", .obj [("id", .str "7")])] "Offer" =
      .error (.keyError "Offer") :=
  claim_C3 [("Conversion", .obj [("id", .str "7")])] "Offer"
    (by simp) rfl

/-- Claim C6: on an empty input mapping both `Mapper.extract_one` and
`Mapper.extract_all` return `none` ("no records"), not an error and not
an empty sequence, for every model name. -/
theorem claim_C6 :
    (∀ mn, Mapper.extract_one [] mn = .ok (none, [])) ∧
    (∀ mn, Mapper.extract_all [] mn = .ok (none, [])) :=
  ⟨fun _ => rfl, fun _ => rfl⟩

/-- Witness for C6 at the spec's example model name "Offer". -/
theorem claim_C6_witness :
    Mapper.extract_one [] "Offer" = .ok (none, []) ∧
    Mapper.extract_all [] "Offer" = .ok (none, []) :=
  ⟨claim_C6.1 "Offer", claim_C6.2 "Offer"⟩

/-- Claim C1: with `retry_count = 3` and every transport attempt
returning a rate-limit error envelope, the call makes exactly 3
transport attempts (the request's counter, starting at 0, reaches 3),
sleeps 250 ms twice (once between each pair of consecutive attempts),
and then raises the rate-limit error to the caller. -/
theorem claim_C1 (api : Api) (transport : Nat → Json)
    (target method : String) (params : Obj)
    (hrc : api.retry_count = 3)
    (henv : ∀ n, envelope_ok (transport n) = .ok false)
    (hrl : ∀ n, ∃ m, cast_error (transport n) = .ok (.rateLimit m)) :
    (api.call transport target method params).request.attempts = 3 ∧
    (api.call transport target method params).delays = [250, 250] ∧
    ∃ m, (api.call transport target method params).result =
      .raised (.rateLimit m) := by
  unfold Api.call
  rw [hrc]
  obtain ⟨ha, hd, m, hr⟩ :=
    send_request_rl_exhaust 3 transport henv hrl 2
      (api.create_request target method params) (by rfl)
  refine ⟨?_, ?_, m, hr⟩
  · rw [ha]
  · rw [hd]
    rfl

/-- Witness for C1: a transport that always answers with the concrete
rate-limit envelope `rlBody`, under the `retry_count = 3` client. -/
theorem claim_C1_witness :
    (api3.call (fun _ => rlBody) "Conversion" "findAll" []).request.attempts = 3 ∧
    (api3.call (fun _ => rlBody) "Conversion" "findAll" []).delays = [250, 250] ∧
    ∃ m, (api3.call (fun _ => rlBody) "Conversion" "findAll" []).result =
      .raised (.rateLimit m) :=
  claim_C1 api3 (fun _ => rlBody) "Conversion" "findAll" [] rfl
    (fun _ => rfl) (fun _ => ⟨.str "API usage exceeded rate limit, wait a bit", rfl⟩)

/-- Claim C7: with `retry_count = 1`, a first attempt that returns a
rate-limit error envelope fails immediately: exactly one transport
attempt, no sleep, and the rate-limit error is raised to the caller. -/
theorem claim_C7 (api : Api) (transport : Nat → Json)
    (target method : String) (params : Obj) (m : Json)
    (hrc : api.retry_count = 1)
    (henv : envelope_ok (transport 1) = .ok false)
    (hrl : cast_error (transport 1) = .ok (.rateLimit m)) :
    (api.call transport target method params).request.attempts = 1 ∧
    (api.call transport target method params).delays = [] ∧
    (api.call transport target method params).result =
      .raised (.rateLimit m) := by
  unfold Api.call
  rw [hrc]
  rw [send_request_stop_rl 1 transport (api.create_request target method params)
    m henv hrl (by omega)]
  exact ⟨rfl, rfl, rfl⟩

/-- Witness for C7 at the concrete rate-limit envelope `rlBody`. -/
theorem claim_C7_witness :
    (api1.call (fun _ => rlBody) "Conversion" "findAll" []).request.attempts = 1 ∧
    (api1.call (fun _ => rlBody) "Conversion" "findAll" []).delays = [] ∧
    (api1.call (fun _ => rlBody) "Conversion" "findAll" []).result =
      .raised (.rateLimit (.str "API usage exceeded rate limit, wait a bit")) :=
  claim_C7 api1 (fun _ => rlBody) "Conversion" "findAll" []
    (.str "API usage exceeded rate limit, wait a bit") rfl rfl rfl

/-- Claim C8: a failed envelope whose classification is not the
rate-limit error is never retried: whatever `retry_count` the client is
configured with, exactly one transport attempt is made, no sleep
happens, and the classified error is raised immediately. -/
theorem claim_C8 (api : Api) (transport : Nat → Json)
    (target method : String) (params : Obj) (e : CastErr)
    (henv : envelope_ok (transport 1) = .ok false)
    (hcast : cast_error (transport 1) = .ok e)
    (hne : ∀ m, e ≠ .rateLimit m) :
    (api.call transport target method params).request.attempts = 1 ∧
    (api.call transport target method params).delays = [] ∧
    (api.call transport target method params).result = .raised e := by
  unfold Api.call
  rw [send_request_raise_other api.retry_count transport
    (api.create_request target method params) e henv hcast hne]
  exact ⟨rfl, rfl, rfl⟩

/-- Witness for C8: a generic API error envelope and a malformed
envelope, both under the `retry_count = 5` client, each answered in one
attempt with no sleep. -/
theorem claim_C8_witness :
    ((api5.call (fun _ => apiErrBody) "Conversion" "findAll" []).request.attempts = 1 ∧
      (api5.call (fun _ => apiErrBody) "Conversion" "findAll" []).delays = [] ∧
      (api5.call (fun _ => apiErrBody) "Conversion" "findAll" []).result =
        .raised (.apiError (.str "Invalid network token"))) ∧
    ((api5.call (fun _ => noRespBody) "Conversion" "findAll" []).request.attempts = 1 ∧
      (api5.call (fun _ => noRespBody) "Conversion" "findAll" []).delays = [] ∧
      (api5.call (fun _ => noRespBody) "Conversion" "findAll" []).result =
        .raised (.unexpected noRespBody)) :=
  ⟨claim_C8 api5 (fun _ => apiErrBody) "Conversion" "findAll" []
      (.apiError (.str "Invalid network token")) rfl rfl (fun m h => by cases h),
    claim_C8 api5 (fun _ => noRespBody) "Conversion" "findAll" []
      (.unexpected noRespBody) rfl rfl (fun m h => by cases h)⟩

/-- Counterexample for C2 as stated: a decoded body whose
`response.status` equals 1 but whose `errorMessage` is "oops" yields a
successful `Response` whose `errorMessage` field is "oops", not the
empty string — the client copies the envelope's `errorMessage` verbatim. -/
theorem claim_C2_counterexample :
    (api1.call (fun _ => c2body) "Conversion" "findAll" []).result =
      .success c2resp ∧
    c2resp.errorMessage ≠ Json.str "" := by
  constructor
  · show (send_request 1 (fun _ => c2body)
      (api1.create_request "Conversion" "findAll" [])).result = _
    rw [send_request_success_step 1 (fun _ => c2body)
      (api1.create_request "Conversion" "findAll" []) c2resp rfl rfl]
  · exact fun h => absurd (Json.str.inj h) (by decide)

/-- Claim C2 as amended: for every decoded body containing a `response`
object with `status == 1` and the four remaining envelope fields
present, the call returns after one attempt a successful `Response`
exposing `data`, `status`, `httpStatus`, `errors` and `errorMessage` as
copied verbatim from the envelope — in particular `errorMessage` equals
the envelope's `errorMessage` (which is the empty string only when the
server sends an empty string). -/
theorem claim_C2 (api : Api) (transport : Nat → Json)
    (target method : String) (params : Obj)
    (bl l : List (String × Json)) (d hs er em : Json)
    (hb : transport 1 = .obj bl)
    (hr : dlookup bl "response" = some (.obj l))
    (hst : dlookup l "status" = some (.num 1))
    (hd : dlookup l "data" = some d)
    (hh : dlookup l "httpStatus" = some hs)
    (he : dlookup l "errors" = some er)
    (hm : dlookup l "errorMessage" = some em) :
    api.call transport target method params =
      ⟨.success
          ⟨{ api.create_request target method params with attempts := 1 },
            .obj bl, d, .num 1, hs, er, em⟩,
        { api.create_request target method params with attempts := 1 }, []⟩ := by
  unfold Api.call
  have h1 : envelope_ok (transport 1) = .ok true := by
    rw [hb]
    simp [envelope_ok, pyIn, pyGetItem, hr, hst, jsonEqOne,
      except_bind_ok, except_pure]
  have h2 : mkResponse
      { api.create_request target method params with attempts := 1 }
      (transport 1) =
      .ok ⟨{ api.create_request target method params with attempts := 1 },
        .obj bl, d, .num 1, hs, er, em⟩ := by
    rw [hb]
    simp [mkResponse, pyGetItem, hr, hst, hd, hh, he, hm,
      except_bind_ok, except_pure]
  exact send_request_success_step api.retry_count transport
    (api.create_request target method params) _ h1 h2

/-- Witness for C2 (amended) at the concrete success envelope
`c2okBody`, whose `errorMessage` is the empty string. -/
theorem claim_C2_witness :
    api1.call (fun _ => c2okBody) "Conversion" "findAll" [] =
      ⟨.success ⟨c2req, c2okBody, .obj [], .num 1, .num 200, .arr [],
          .str ""⟩, c2req, []⟩ :=
  claim_C2 api1 (fun _ => c2okBody) "Conversion" "findAll" []
    [("response", .obj [("status", .num 1), ("httpStatus", .num 200),
      ("data", .obj []), ("errors", .arr []), ("errorMessage", .str "")])]
    [("status", .num 1), ("httpStatus", .num 200), ("data", .obj []),
      ("errors", .arr []), ("errorMessage", .str "")]
    (.obj []) (.num 200) (.arr []) (.str "")
    rfl rfl rfl rfl rfl rfl rfl

/-- Claim C5: `cast_error` is a pure function of the decoded body that
yields (1) the malformed-envelope error when the body has no `response`
key, (2) the same when the `response` object has no `status` key, and
(3) for an envelope with the `response`/`status` shape and a string
`errorMessage`, the rate-limit error exactly when the message contains
the substring "API usage exceeded rate limit", and otherwise the generic
API error carrying the server-supplied message. -/
theorem claim_C5 :
    (∀ bl, dlookup bl "response" = none →
      cast_error (.obj bl) = .ok (.unexpected (.obj bl))) ∧
    (∀ bl l, dlookup bl "response" = some (.obj l) →
      dlookup l "status" = none →
      cast_error (.obj bl) = .ok (.unexpected (.obj bl))) ∧
    (∀ bl l s, dlookup bl "response" = some (.obj l) →
      (dlookup l "status").isSome = true →
      dlookup l "errorMessage" = some (.str s) →
      cast_error (.obj bl) =
        .ok (if strContains "API usage exceeded rate limit" s = true
          then .rateLimit (.str s) else .apiError (.str s))) := by
  refine ⟨?_, ?_, ?_⟩
  · intro bl hnone
    simp [cast_error, pyIn, pyGetItem, hnone, except_bind_ok, except_pure]
  · intro bl l hr hs
    simp [cast_error, pyIn, pyGetItem, hr, hs, except_bind_ok, except_pure]
  · intro bl l s hr hs hm
    cases hc : strContains "API usage exceeded rate limit" s <;>
      simp [cast_error, pyIn, pyGetItem, hr, hs, hm, hc,
        except_bind_ok, except_pure]

/-- Witness for C5: the three classifier outcomes at concrete bodies —
a body without `response`, a `response` without `status`, the concrete
rate-limit envelope, and a generic error envelope. -/
theorem claim_C5_witness :
    cast_error noRespBody = .ok (.unexpected noRespBody) ∧
    cast_error noStatusBody = .ok (.unexpected noStatusBody) ∧
    cast_error rlBody =
      .ok (.rateLimit (.str "API usage exceeded rate limit, wait a bit")) ∧
    cast_error apiErrBody = .ok (.apiError (.str "Invalid network token")) := by
  refine ⟨claim_C5.1 _ rfl, claim_C5.2.1 _ _ rfl rfl, ?_, ?_⟩
  · have h := claim_C5.2.2
      [("response", .obj [("status", .num 0),
        ("errorMessage", .str "API usage exceeded rate limit, wait a bit")])]
      [("status", .num 0),
        ("errorMessage", .str "API usage exceeded rate limit, wait a bit")]
      "API usage exceeded rate limit, wait a bit" rfl rfl rfl
    rwa [if_pos (by decide)] at h
  · have h := claim_C5.2.2
      [("response", .obj [("status", .num 0),
        ("errorMessage", .str "Invalid network token")])]
      [("status", .num 0), ("errorMessage", .str "Invalid network token")]
      "Invalid network token" rfl rfl rfl
    rwa [if_neg (by decide)] at h

/-- Field-by-field behaviour of the `Model.__init__` loop: a key other
than `id` keeps its value; the key `id` gets `int(v)`. -/
theorem mapM_coerceField_mem (d : Obj) : ∀ fs : Obj,
    d.mapM coerceField = .ok fs →
    (∀ k v, (k, v) ∈ d → ¬k = "id" → (k, v) ∈ fs) ∧
    (∀ v, ("id", v) ∈ d → ∃ n, pyInt v = .ok n ∧ ("id", Json.num n) ∈ fs) := by
  induction d with
  | nil =>
    intro fs h
    constructor <;> intro _ <;> simp_all
  | cons p rest ih =>
    intro fs h
    rw [List.mapM_cons] at h
    cases hc : coerceField p with
    | error e => rw [hc] at h; simp [except_bind_error] at h
    | ok x =>
      rw [hc] at h
      cases hrest : rest.mapM coerceField with
      | error e => rw [hrest] at h; simp [except_bind_ok, except_bind_error] at h
      | ok xs =>
        rw [hrest] at h
        simp only [except_bind_ok, except_pure] at h
        obtain rfl : x :: xs = fs := Except.ok.inj h
        obtain ⟨ih1, ih2⟩ := ih xs hrest
        constructor
        · intro k v hmem hk
          rcases List.mem_cons.mp hmem with heq | hm2
          · rw [← heq] at hc
            simp only [coerceField] at hc
            rw [if_neg (by simpa using hk)] at hc
            obtain rfl : (k, v) = x := Except.ok.inj hc
            exact List.mem_cons_self _ _
          · exact List.mem_cons_of_mem _ (ih1 k v hm2 hk)
        · intro v hmem
          rcases List.mem_cons.mp hmem with heq | hm2
          · rw [← heq] at hc
            simp only [coerceField] at hc
            rw [if_pos (by decide)] at hc
            cases hpi : pyInt v with
            | error e => rw [hpi] at hc; simp [Except.map] at hc
            | ok n =>
              rw [hpi] at hc
              simp only [Except.map] at hc
              obtain rfl : ("id", Json.num n) = x := Except.ok.inj hc
              exact ⟨n, rfl, List.mem_cons_self _ _⟩
          · obtain ⟨n, h1, h2⟩ := ih2 v hm2
            exact ⟨n, h1, List.mem_cons_of_mem _ h2⟩

/-- Claim C4: every entity record produced by the mapper coerces the
top-level key `id` to an integer and leaves every other key's value
untouched, and on the spec's example `extract_all` returns exactly one
record with `id == 5` (an integer), `payout == "10"` (still a string)
and an `Offer` field equal to the sibling mapping with its nested `id`
not coerced. -/
theorem claim_C4 :
    (∀ d m, modelInit d = .ok m →
      ((∀ k v, (k, v) ∈ d → ¬k = "id" → (k, v) ∈ m.fields) ∧
        (∀ v, ("id", v) ∈ d →
          ∃ n, pyInt v = .ok n ∧ ("id", Json.num n) ∈ m.fields))) ∧
    Mapper.extract_all c4data "Conversion" = .ok (some [c4model], c4post) := by
  constructor
  · intro d m h
    have hm : d.mapM coerceField = .ok m.fields := by
      unfold modelInit at h
      cases hc : d.mapM coerceField with
      | error e => rw [hc] at h; simp [Except.map] at h
      | ok fs =>
        rw [hc] at h
        simp only [Except.map] at h
        obtain rfl : Model.mk fs = m := Except.ok.inj h
        rfl
    exact mapM_coerceField_mem d m.fields hm
  · rfl

/-- Witness for C4: the coercion facts instantiated on the merged scope
of the example — `payout` kept verbatim, `id` parsed to the integer 5. -/
theorem claim_C4_witness :
    ("payout", Json.str "10") ∈ c4model.fields ∧
    (∃ n, pyInt (.str "5") = .ok n ∧ ("id", Json.num n) ∈ c4model.fields) :=
  ⟨(claim_C4.1 [("id", .str "5"), ("payout", .str "10"),
        ("Offer", .obj [("id", .str "2")])] c4model rfl).1
      "payout" (.str "10")
      (List.mem_cons_of_mem _ (List.mem_cons_self _ _)) (by decide),
    (claim_C4.1 [("id", .str "5"), ("payout", .str "10"),
        ("Offer", .obj [("id", .str "2")])] c4model rfl).2
      (.str "5") (List.mem_cons_self _ _)⟩

/-- Counterexample for C9 as stated: extracting from a response is not
mutation-free — after `extract_one` the response's `data` differs from
what it was (the primary `Conversion` scope has gained the sibling
`Offer` entry in place), and so does the decoded envelope, because
`data` aliases `json_response['response']['data']`. -/
theorem claim_C9_counterexample :
    Response.extract_one c9resp none = .ok (some c9model, c9post) ∧
    c9post.data ≠ c9resp.data ∧
    c9post.json_response ≠ c9resp.json_response := by
  refine ⟨rfl, fun h => ?_, fun h => ?_⟩
  · have h2 : (Except.ok true : Except PyErr Bool) = Except.ok false :=
      congrArg (fun j => (pyGetItem j "Conversion").bind (pyIn "Offer")) h
    exact Bool.noConfusion (Except.ok.inj h2)
  · have h2 : (Except.ok true : Except PyErr Bool) = Except.ok false :=
      congrArg (fun j => (pyGetItem j "response").bind
        (fun resp => (pyGetItem resp "data").bind
          (fun dd => (pyGetItem dd "Conversion").bind (pyIn "Offer")))) h
    exact Bool.noConfusion (Except.ok.inj h2)

/-- Characterization of a successful non-empty `Mapper.extract_one`: the
primary scope is a JSON object, the merged scope builds the model, and
the returned data is the input with the primary scope replaced in place
by the merged scope. -/
theorem extract_one_ok_some (data : Obj) (mn : String) (m : Model)
    (out : Obj) (h : Mapper.extract_one data mn = .ok (some m, out)) :
    ∃ l, dlookup data mn = some (.obj l) ∧
      modelInit (dictUpdate l (data.filter (fun p => p.1 != mn))) = .ok m ∧
      out = setKey data mn
        (.obj (dictUpdate l (data.filter (fun p => p.1 != mn)))) := by
  unfold Mapper.extract_one at h
  by_cases hlen : data.length = 0
  · rw [if_pos hlen] at h
    have := congrArg Prod.fst (Except.ok.inj h)
    cases this
  · rw [if_neg hlen] at h
    cases hdl : dlookup data mn with
    | none => simp only [hdl] at h; exact Except.noConfusion h
    | some ms =>
      cases ms with
      | obj l =>
        simp only [hdl] at h
        cases hmi : modelInit
            (dictUpdate l (data.filter (fun p => p.1 != mn))) with
        | error e => simp only [hmi] at h; exact Except.noConfusion h
        | ok mm =>
          simp only [hmi] at h
          have hp := Except.ok.inj h
          have h1 : some mm = some m := congrArg Prod.fst hp
          have h2 := congrArg Prod.snd hp
          obtain rfl : mm = m := Option.some.inj h1
          exact ⟨l, rfl, hmi, h2.symm⟩
      | null => simp only [hdl] at h; exact Except.noConfusion h
      | bool b => simp only [hdl] at h; exact Except.noConfusion h
      | num n => simp only [hdl] at h; exact Except.noConfusion h
      | str s => simp only [hdl] at h; exact Except.noConfusion h
      | arr a => simp only [hdl] at h; exact Except.noConfusion h

/-- Claim C9 as amended: a successful `extract_one` mutates the response
in place rather than leaving it unchanged — inside `data` the primary
scope becomes the merge of its old value with every sibling entry, and
because `data` aliases `json_response['response']['data']` the
envelope's `response.data` becomes that same mutated mapping. The frame:
every `Response` field other than `data` and `json_response`, every
other top-level key of `data`, every other top-level key of the
envelope, and every other key of its `response` object keep their
previous values. Stated under the aliasing invariant, which holds for
every `Response` the client constructs. -/
theorem claim_C9 (r : Response) (mn : Option String) (bl rl d : Obj)
    (m : Model) (r2 : Response)
    (hbody : r.json_response = .obj bl)
    (hrl : dlookup bl "response" = some (.obj rl))
    (hdata : dlookup rl "data" = some r.data)
    (hd : r.data = .obj d)
    (h : Response.extract_one r mn = .ok (some m, r2)) :
    ({ r2 with
        data := r.data,
        json_response := r.json_response } = r) ∧
    ∃ d2, r2.data = .obj d2 ∧
      (∀ k, ¬k = orTarget mn r.request.target →
        dlookup d2 k = dlookup d k) ∧
      (∃ l, dlookup d (orTarget mn r.request.target) = some (.obj l) ∧
        dlookup d2 (orTarget mn r.request.target) =
          some (.obj (dictUpdate l
            (d.filter (fun p => p.1 != orTarget mn r.request.target))))) ∧
      ∃ bl2 rl2, r2.json_response = .obj bl2 ∧
        dlookup bl2 "response" = some (.obj rl2) ∧
        dlookup rl2 "data" = some (.obj d2) ∧
        (∀ k, ¬k = "response" → dlookup bl2 k = dlookup bl k) ∧
        (∀ k, ¬k = "data" → dlookup rl2 k = dlookup rl k) := by
  have hm2 : (Mapper.extract_one d (orTarget mn r.request.target)).map
      (fun p => (p.1, { r with
        data := Json.obj p.2,
        json_response := writeDataAlias r.json_response (Json.obj p.2) })) =
      .ok (some m, r2) := by
    rw [← h]
    unfold Response.extract_one
    rw [hd]
  cases hx : Mapper.extract_one d (orTarget mn r.request.target) with
  | error e => rw [hx] at hm2; simp [Except.map] at hm2
  | ok p =>
    rw [hx] at hm2
    simp only [Except.map] at hm2
    have hpair := Except.ok.inj hm2
    have hp1 : p.1 = some m := congrArg Prod.fst hpair
    have hr2 : { r with
        data := Json.obj p.2,
        json_response := writeDataAlias r.json_response (Json.obj p.2) } = r2 :=
      congrArg Prod.snd hpair
    have hx2 : Mapper.extract_one d (orTarget mn r.request.target) =
        .ok (some m, p.2) := by
      rw [hx, ← hp1]
    obtain ⟨l, hdl, hmi, hout⟩ :=
      extract_one_ok_some d (orTarget mn r.request.target) m p.2 hx2
    have hw : writeDataAlias r.json_response (Json.obj p.2) =
        .obj (setKey bl "response" (.obj (setKey rl "data" (Json.obj p.2)))) := by
      rw [hbody]
      simp [writeDataAlias, hrl, hdata]
    subst hr2
    refine ⟨rfl, p.2, rfl, ?_, ⟨l, hdl, ?_⟩,
      setKey bl "response" (.obj (setKey rl "data" (Json.obj p.2))),
      setKey rl "data" (Json.obj p.2), hw, dlookup_setKey_self _ _ _,
      dlookup_setKey_self _ _ _, ?_, ?_⟩
    · intro k hk
      rw [hout, dlookup_setKey_ne _ _ _ _ hk]
    · rw [hout, dlookup_setKey_self]
    · intro k hk
      rw [dlookup_setKey_ne _ _ _ _ hk]
    · intro k hk
      rw [dlookup_setKey_ne _ _ _ _ hk]

/-- Witness for C9 (amended) at the concrete response `c9resp`: the
sibling `Offer` entry of `data`, the other envelope fields and the
other `response` keys are untouched, while both the primary
`Conversion` scope and the envelope's `response.data` have become the
sibling-merged mapping. -/
theorem claim_C9_witness :
    ({ c9post with
        data := c9resp.data,
        json_response := c9resp.json_response } = c9resp) ∧
    ∃ d2, c9post.data = .obj d2 ∧
      (∀ k, ¬k = orTarget none c9resp.request.target →
        dlookup d2 k = dlookup c9data k) ∧
      (∃ l, dlookup c9data (orTarget none c9resp.request.target) =
          some (.obj l) ∧
        dlookup d2 (orTarget none c9resp.request.target) =
          some (.obj (dictUpdate l
            (c9data.filter
              (fun p => p.1 != orTarget none c9resp.request.target))))) ∧
      ∃ bl2 rl2, c9post.json_response = .obj bl2 ∧
        dlookup bl2 "response" = some (.obj rl2) ∧
        dlookup rl2 "data" = some (.obj d2) ∧
        (∀ k, ¬k = "response" → dlookup bl2 k =
          dlookup [("response", Json.obj [("status", Json.num 1),
            ("httpStatus", Json.num 200), ("data", Json.obj c9data),
            ("errors", Json.arr []), ("errorMessage", Json.str "")])] k) ∧
        (∀ k, ¬k = "data" → dlookup rl2 k =
          dlookup [("status", Json.num 1), ("httpStatus", Json.num 200),
            ("data", Json.obj c9data), ("errors", Json.arr []),
            ("errorMessage", Json.str "")] k) :=
  claim_C9 c9resp none
    [("response", .obj [("status", .num 1), ("httpStatus", .num 200),
      ("data", .obj c9data), ("errors", .arr []),
      ("errorMessage", .str "")])]
    [("status", .num 1), ("httpStatus", .num 200), ("data", .obj c9data),
      ("errors", .arr []), ("errorMessage", .str "")]
    c9data c9model c9post rfl rfl rfl rfl rfl

/-- Claim C10: the mapper's merge gives the sibling entry precedence on a
key collision — `dictUpdate` (the embedding of
`model_scope.update(relative_scopes)`) makes the sibling's value the one
found in the merged scope, and on the concrete colliding input the
record's `Offer` field is the sibling scope, not the primary scope's
original string value. -/
theorem claim_C10 :
    (∀ d upd k v, (upd.map Prod.fst).Nodup → (k, v) ∈ upd →
      dlookup (dictUpdate d upd) k = some v) ∧
    Mapper.extract_one c10data "Conversion" =
      .ok (some c10model, c10post) :=
  ⟨fun d upd k v hnd hmem => dlookup_dictUpdate_mem d upd k v hnd hmem, rfl⟩

/-- Witness for C10: the sibling `Offer` entry wins against the primary
scope's own `Offer` field in a concrete merge. -/
theorem claim_C10_witness :
    dlookup
      (dictUpdate [("id", Json.str "1"), ("Offer", Json.str "stale")]
        [("Offer", Json.obj [("id", Json.str "2")])])
      "Offer" = some (Json.obj [("id", Json.str "2")]) :=
  claim_C10.1 [("id", Json.str "1"), ("Offer", Json.str "stale")]
    [("Offer", Json.obj [("id", Json.str "2")])]
    "Offer" (Json.obj [("id", Json.str "2")])
    (by simp) (List.mem_cons_self _ _)

end Hobuilder
